import Mathlib

/-!
Shallow embedding of `src/backend/lambda.py` from the Smart-Parking-System
repository.

The Python module is a single AWS Lambda handler.  External collaborators
(DynamoDB tables, S3, Rekognition, CloudWatch) are modelled as explicit
state and inputs:

* the `ParkingLot` table row for `lot1` becomes `Store.occ : Option Int`
  (`none` = the item is absent from the table);
* the `ParkingLogs` table becomes an association list keyed by plate;
  `put_item` prepends (the newest record shadows older ones on lookup,
  matching DynamoDB overwrite-by-key);
* Rekognition's reply is an input `Option (List TextDetection)` where
  `none` models the call raising (caught by the code);
* CloudWatch `put_metric_data` is modelled by returning the list of metric
  samples the code would push;
* `time.time()` / `time.strftime` become explicit `now` / `timestamp`
  parameters;
* `base64.b64decode` (standard alphabet, padding required, non-alphabet
  characters discarded) is implemented directly; failure is `none`.

A DynamoDB `update_item` whose update expression reads the attribute of an
item that does not exist raises a `ValidationException`; the code does not
catch it, so `handle_exit` (and hence `lambda_handler` on an EXIT action)
returns an `Option`, with `none` for that uncaught fault.
-/

namespace SmartParking

def TABLE_NAME : String := "ParkingLot"

def LOGS_TABLE_NAME : String := "ParkingLogs"

def BUCKET_NAME : String := "parking-lot-images-cpc357"

def REGION : String := "ap-southeast-1"

def MAX_SPOTS : Int := 30

def DEBUG_MODE : Bool := true

/-- One record of the `ParkingLogs` table, as written by `handle_entry`
(`log_id` is the key of the association list holding these). -/
structure SessionRecord where
  timestamp : String
  entry_epoch : Int
  action : String
  image_url : String
deriving DecidableEq

/-- The persistent store: the `lot1` row of the `ParkingLot` table
(`none` when the item is absent) and the `ParkingLogs` table. -/
structure Store where
  occ : Option Int
  sessions : List (String × SessionRecord)
deriving DecidableEq

/-- The JSON response produced by `api_response`. -/
structure ApiResponse where
  statusCode : Int
  body : String
deriving DecidableEq

/-- One CloudWatch metric sample pushed by `send_cloudwatch_data`. -/
structure Metric where
  metricName : String
  value : Int
  unit : String
deriving DecidableEq

/-- One element of Rekognition's `TextDetections` list. -/
structure TextDetection where
  dType : String
  confidence : Rat
  detectedText : String
deriving DecidableEq

/-- The inbound API-Gateway event: headers, the `isBase64Encoded` flag and
the `body` field (`none` when the key is missing, so that `event['body']`
raises `KeyError`). -/
structure Event where
  headers : List (String × String)
  isBase64Encoded : Bool
  body : Option String
deriving DecidableEq

/-- `api_response(code, message)`. -/
def api_response (code : Int) (message : String) : ApiResponse :=
  ⟨code, message⟩

/-- Value of a character in the standard base64 alphabet. -/
def b64charVal (c : Char) : Option Nat :=
  if 'A' ≤ c ∧ c ≤ 'Z' then some (c.toNat - 65)
  else if 'a' ≤ c ∧ c ≤ 'z' then some (c.toNat - 97 + 26)
  else if '0' ≤ c ∧ c ≤ '9' then some (c.toNat - 48 + 52)
  else if c = '+' then some 62
  else if c = '/' then some 63
  else none

/-- Decode groups of four base64 characters into bytes; `'='` padding is
accepted only at the end, and a leftover group of fewer than four
characters is a padding error (`none`). -/
def decodeQuads : List Char → Option (List Nat)
  | [] => some []
  | a :: b :: c :: d :: rest =>
    match b64charVal a, b64charVal b with
    | some va, some vb =>
      if c = '=' then
        if d = '=' ∧ rest = [] then some [va * 4 + vb / 16] else none
      else
        match b64charVal c with
        | some vc =>
          if d = '=' then
            if rest = [] then some [va * 4 + vb / 16, vb % 16 * 16 + vc / 4]
            else none
          else
            match b64charVal d with
            | some vd =>
              match decodeQuads rest with
              | some tail =>
                some ([va * 4 + vb / 16, vb % 16 * 16 + vc / 4,
                       vc % 4 * 64 + vd] ++ tail)
              | none => none
            | none => none
        | none => none
    | _, _ => none
  | _ => none

/-- Python `base64.b64decode` on a string (default `validate=False`):
characters outside the alphabet are discarded, then the rest must form
whole, correctly padded groups of four; `none` models the raised
`binascii.Error`. -/
def b64decode (s : String) : Option (List Nat) :=
  decodeQuads (s.data.filter (fun ch => (b64charVal ch).isSome || ch == '='))

/-- Step B of `lambda_handler`: `event['body']` (raising `KeyError`, hence
`none`, when absent) then `base64.b64decode`; the `isBase64Encoded` flag is
read but both branches perform the same decode. -/
def decodeBody (event : Event) : Option (List Nat) :=
  match event.body with
  | none => none
  | some b => if event.isBase64Encoded then b64decode b else b64decode b

/-- Step A of `lambda_handler`:
`headers.get('x-parking-action', headers.get('X-Parking-Action', 'ENTRY'))`. -/
def actionOf (event : Event) : String :=
  ((event.headers.lookup "x-parking-action").getD
    ((event.headers.lookup "X-Parking-Action").getD "ENTRY"))

/-- Step D of `lambda_handler`: the loop collecting `DetectedText` of every
detection with `Type == 'LINE'` and `Confidence > 70`. -/
def detectLines (dets : List TextDetection) : List String :=
  dets.foldl
    (fun acc item =>
      if item.dType = "LINE" ∧ 70 < item.confidence then
        acc ++ [item.detectedText]
      else acc)
    []

/-- Python `int(x / 60)`: exact division truncated toward zero (the float
rounding of `/` is not modelled; it is exact on the magnitudes involved). -/
def int_div_60 (x : Int) : Int :=
  if 0 ≤ x then ((x.toNat / 60 : Nat) : Int)
  else -(((-x).toNat / 60 : Nat) : Int)

/-- `send_cloudwatch_data(action, plate, slots_left, duration_mins)`,
modelled as the batch of metric samples pushed to CloudWatch. -/
def send_cloudwatch_data (action : String) (_plate : String)
    (slots_left duration_mins : Int) : List Metric :=
  let metric_data : List Metric := [⟨"AvailableSlots_Demo", slots_left, "Count"⟩]
  let metric_data :=
    if action = "ENTRY" then metric_data ++ [⟨"DailyCarCount", 1, "Count"⟩]
    else if action = "EXIT" then
      if 0 < duration_mins then
        metric_data ++ [⟨"ParkingDuration", duration_mins, "Count"⟩]
      else metric_data
    else metric_data
  metric_data

/-- Result of `handle_entry`: the updated store, the response, and the
CloudWatch samples pushed ( `[]` when `send_cloudwatch_data` is not called). -/
structure EntryResult where
  store : Store
  response : ApiResponse
  metrics : List Metric
deriving DecidableEq

/-- Result of `handle_exit`, with the computed `duration_minutes` local
exposed as a ghost field. -/
structure ExitResult where
  store : Store
  response : ApiResponse
  metrics : List Metric
  duration_minutes : Int
deriving DecidableEq

/-- `handle_entry(plate, image_key)`: read the `lot1` row (initialising it
to `MAX_SPOTS` if absent), return FULL when `slots <= 0`, otherwise for a
recognised plate decrement the stored counter, write the session record and
push metrics; for an UNKNOWN plate return DENIED_NO_TEXT. -/
def handle_entry (plate image_key : String) (now : Int) (timestamp : String)
    (st : Store) : EntryResult :=
  let init : Store × Int :=
    match st.occ with
    | none => ({ st with occ := some MAX_SPOTS }, MAX_SPOTS)
    | some s => (st, s)
  let st1 := init.1
  let slots := init.2
  if slots ≤ 0 then
    ⟨st1, api_response 200 "FULL", []⟩
  else if plate ≠ "UNKNOWN" then
    let new_slots := slots - 1
    let st2 := { st1 with occ := st1.occ.map (fun v => v - 1) }
    let current_epoch := now
    let record : SessionRecord :=
      ⟨timestamp, current_epoch, "ENTRY",
        "https://" ++ BUCKET_NAME ++ ".s3." ++ REGION ++ ".amazonaws.com/"
          ++ image_key⟩
    let st3 := { st2 with sessions := (plate, record) :: st2.sessions }
    ⟨st3, api_response 200 "OPEN_GATE",
      send_cloudwatch_data "ENTRY" plate new_slots 0⟩
  else
    ⟨st1, api_response 200 "DENIED_NO_TEXT", []⟩

/-- `handle_exit(plate)`: increment the stored counter (`none` when the
`lot1` item is absent, where the uncaught `ValidationException` aborts the
request), compute the parking duration from the session record when the
plate is known, push metrics, return EXIT_SUCCESS. -/
def handle_exit (plate : String) (now : Int) (st : Store) :
    Option ExitResult :=
  match st.occ with
  | none => none
  | some s =>
    let new_slots := s + 1
    let st1 := { st with occ := some (s + 1) }
    let duration_minutes : Int :=
      if plate ≠ "UNKNOWN" then
        match st.sessions.lookup plate with
        | some rec =>
          let entry_time := rec.entry_epoch
          let exit_time := now
          let duration_seconds := exit_time - entry_time
          int_div_60 duration_seconds
        | none => 0
      else 0
    some ⟨st1, api_response 200 "EXIT_SUCCESS",
      send_cloudwatch_data "EXIT" plate new_slots duration_minutes,
      duration_minutes⟩

/-- Step D wrapped: the plate string derived from the image bytes and the
Rekognition outcome (`none` = the call raised and was caught); Rekognition
is only invoked when the bytes are non-empty, and
`detected_text[0] if len(detected_text) > 0 else "UNKNOWN"`. -/
def recognizedPlate (image_bytes : List Nat)
    (rek : Option (List TextDetection)) : String :=
  let detected_text : List String :=
    if image_bytes ≠ [] then
      match rek with
      | some resp => detectLines resp
      | none => []
    else []
  match detected_text with
  | t :: _ => t
  | [] => "UNKNOWN"

/-- Result of `lambda_handler`: final store, response, pushed metrics, and
the S3 keys for which a `put_object` was attempted. -/
structure LambdaResult where
  store : Store
  response : ApiResponse
  metrics : List Metric
  uploads : List String
deriving DecidableEq

/-- `lambda_handler(event, context)`: extract the action header, decode the
body (400 IMAGE_DECODE_ERROR on failure), upload the image to S3 in debug
mode when bytes are non-empty, run OCR, then route to `handle_entry`,
`handle_exit`, or 400 INVALID_ACTION. -/
def lambda_handler (event : Event) (rek : Option (List TextDetection))
    (now : Int) (timestamp : String) (st : Store) : Option LambdaResult :=
  let action := actionOf event
  match decodeBody event with
  | none => some ⟨st, api_response 400 "IMAGE_DECODE_ERROR", [], []⟩
  | some image_bytes =>
    let fu : String × List String :=
      if DEBUG_MODE ∧ image_bytes ≠ [] then
        let f := action.toLower ++ "_" ++ toString now ++ ".jpg"
        (f, [f])
      else ("error.jpg", [])
    let filename := fu.1
    let uploads := fu.2
    let plate_read := recognizedPlate image_bytes rek
    if action = "ENTRY" then
      let r := handle_entry plate_read filename now timestamp st
      some ⟨r.store, r.response, r.metrics, uploads⟩
    else if action = "EXIT" then
      (handle_exit plate_read now st).map
        (fun r => ⟨r.store, r.response, r.metrics, uploads⟩)
    else
      some ⟨st, api_response 400 "INVALID_ACTION", [], uploads⟩


lemma handle_entry_full (plate image_key : String) (now : Int) (ts : String)
    (st : Store) (s : Int) (h : st.occ = some s) (hs : s ≤ 0) :
    handle_entry plate image_key now ts st = ⟨st, api_response 200 "FULL", []⟩ := by
  simp [handle_entry, h, hs]

lemma handle_entry_denied (image_key : String) (now : Int) (ts : String)
    (st : Store) (s : Int) (h : st.occ = some s) (hs : 0 < s) :
    handle_entry "UNKNOWN" image_key now ts st
      = ⟨st, api_response 200 "DENIED_NO_TEXT", []⟩ := by
  simp [handle_entry, h, show ¬ s ≤ 0 by omega]

lemma handle_entry_open (plate image_key : String) (now : Int) (ts : String)
    (st : Store) (hp : plate ≠ "UNKNOWN") (hs : 0 < st.occ.getD MAX_SPOTS) :
    handle_entry plate image_key now ts st
      = ⟨{ occ := some (st.occ.getD MAX_SPOTS - 1),
           sessions := (plate,
             ⟨ts, now, "ENTRY",
               "https://" ++ BUCKET_NAME ++ ".s3." ++ REGION
                 ++ ".amazonaws.com/" ++ image_key⟩) :: st.sessions },
         api_response 200 "OPEN_GATE",
         send_cloudwatch_data "ENTRY" plate (st.occ.getD MAX_SPOTS - 1) 0⟩ := by
  rcases hocc : st.occ with _ | s
  · rw [hocc] at hs
    simp only [Option.getD] at hs ⊢
    simp [handle_entry, hocc, hp, show ¬ MAX_SPOTS ≤ 0 by decide]
  · rw [hocc] at hs
    simp only [Option.getD] at hs ⊢
    simp [handle_entry, hocc, hp, show ¬ s ≤ 0 by omega]

lemma handle_exit_eq (plate : String) (now : Int) (st : Store) (s : Int)
    (h : st.occ = some s) :
    handle_exit plate now st
      = some ⟨{ occ := some (s + 1), sessions := st.sessions },
          api_response 200 "EXIT_SUCCESS",
          send_cloudwatch_data "EXIT" plate (s + 1)
            (if plate ≠ "UNKNOWN" then
              match st.sessions.lookup plate with
              | some rec => int_div_60 (now - rec.entry_epoch)
              | none => 0
             else 0),
          (if plate ≠ "UNKNOWN" then
              match st.sessions.lookup plate with
              | some rec => int_div_60 (now - rec.entry_epoch)
              | none => 0
             else 0)⟩ := by
  simp [handle_exit, h]
/-- Claim C1: an ENTRY request with a recognised plate and available slots
(stored counter positive, or the occupancy item absent and hence
initialised to `MAX_SPOTS`) decrements the counter by exactly 1, writes the
session record for that plate with `entry_epoch` equal to the request time,
action ENTRY and the image URL built from the stored key, and returns
`{200, "OPEN_GATE"}`. -/
theorem c1_entry_open_gate (plate image_key : String) (now : Int)
    (ts : String) (st : Store) (hp : plate ≠ "UNKNOWN")
    (hs : 0 < st.occ.getD MAX_SPOTS) :
    (handle_entry plate image_key now ts st).store.occ
        = some (st.occ.getD MAX_SPOTS - 1) ∧
    (handle_entry plate image_key now ts st).store.sessions.lookup plate
        = some ⟨ts, now, "ENTRY",
            "https://" ++ BUCKET_NAME ++ ".s3." ++ REGION
              ++ ".amazonaws.com/" ++ image_key⟩ ∧
    (handle_entry plate image_key now ts st).response
        = api_response 200 "OPEN_GATE" := by
  rw [handle_entry_open plate image_key now ts st hp hs]
  refine ⟨rfl, ?_, rfl⟩
  simp [List.lookup]

theorem c1_witness :
    (handle_entry "ABC123" "entry_100.jpg" 100 "t" ⟨some 5, []⟩).store.occ
        = some ((⟨some 5, []⟩ : Store).occ.getD MAX_SPOTS - 1) ∧
    (handle_entry "ABC123" "entry_100.jpg" 100 "t" ⟨some 5, []⟩).store.sessions.lookup "ABC123"
        = some ⟨"t", 100, "ENTRY",
            "https://" ++ BUCKET_NAME ++ ".s3." ++ REGION
              ++ ".amazonaws.com/" ++ "entry_100.jpg"⟩ ∧
    (handle_entry "ABC123" "entry_100.jpg" 100 "t" ⟨some 5, []⟩).response
        = api_response 200 "OPEN_GATE" :=
  c1_entry_open_gate "ABC123" "entry_100.jpg" 100 "t" ⟨some 5, []⟩
    (by decide) (by decide)

/-- Claim C2: an EXIT request always increments the stored counter by
exactly 1 and returns `{200, "EXIT_SUCCESS"}`, whatever the plate and
whether or not a session record exists (stated for states where the
occupancy item is present; on an absent item the uncaught store fault
aborts the request before any response). -/
theorem c2_exit_increments (plate : String) (now : Int) (st : Store)
    (s : Int) (h : st.occ = some s) :
    ∃ r, handle_exit plate now st = some r ∧
      r.store.occ = some (s + 1) ∧
      r.response = api_response 200 "EXIT_SUCCESS" := by
  exact ⟨_, handle_exit_eq plate now st s h, rfl, rfl⟩

theorem c2_witness :
    ∃ r, handle_exit "UNKNOWN" 44 ⟨some 30, []⟩ = some r ∧
      r.store.occ = some (30 + 1) ∧
      r.response = api_response 200 "EXIT_SUCCESS" :=
  c2_exit_increments "UNKNOWN" 44 ⟨some 30, []⟩ 30 rfl

/-- Claim C6: an ENTRY request when the stored counter is at most 0 returns
`{200, "FULL"}` for any plate (including UNKNOWN), mutating nothing: the
store is returned unchanged and no metrics are pushed. -/
theorem c6_entry_full (plate image_key : String) (now : Int) (ts : String)
    (st : Store) (s : Int) (h : st.occ = some s) (hs : s ≤ 0) :
    handle_entry plate image_key now ts st
      = ⟨st, api_response 200 "FULL", []⟩ :=
  handle_entry_full plate image_key now ts st s h hs

theorem c6_witness :
    handle_entry "UNKNOWN" "k.jpg" 7 "t" ⟨some 0, []⟩
      = ⟨⟨some 0, []⟩, api_response 200 "FULL", []⟩ :=
  c6_entry_full "UNKNOWN" "k.jpg" 7 "t" ⟨some 0, []⟩ 0 rfl (by decide)

/-- Claim C7: an ENTRY request with plate UNKNOWN and a positive stored
counter returns `{200, "DENIED_NO_TEXT"}`, leaves the store (counter and
sessions) unchanged and pushes no metrics. -/
theorem c7_entry_denied (image_key : String) (now : Int) (ts : String)
    (st : Store) (s : Int) (h : st.occ = some s) (hs : 0 < s) :
    handle_entry "UNKNOWN" image_key now ts st
      = ⟨st, api_response 200 "DENIED_NO_TEXT", []⟩ :=
  handle_entry_denied image_key now ts st s h hs

theorem c7_witness :
    handle_entry "UNKNOWN" "k.jpg" 7 "t" ⟨some 12, []⟩
      = ⟨⟨some 12, []⟩, api_response 200 "DENIED_NO_TEXT", []⟩ :=
  c7_entry_denied "k.jpg" 7 "t" ⟨some 12, []⟩ 12 rfl (by decide)
/-- The claimed invariant on the occupancy record: when the item is
present, `0 ≤ available_slots ≤ MAX_SPOTS`. -/
def SlotsInRange (st : Store) : Prop :=
  match st.occ with
  | none => True
  | some s => 0 ≤ s ∧ s ≤ MAX_SPOTS

/-- The lower half of the claimed invariant: when the occupancy item is
present, `0 ≤ available_slots`. -/
def SlotsNonneg (st : Store) : Prop :=
  match st.occ with
  | none => True
  | some s => 0 ≤ s

theorem c3_counterexample :
    SlotsInRange ⟨some MAX_SPOTS, []⟩ ∧
    (handle_exit "ABC123" 7 ⟨some MAX_SPOTS, []⟩).map (fun r => r.store.occ)
        = some (some (MAX_SPOTS + 1)) ∧
    ¬ SlotsInRange ⟨some (MAX_SPOTS + 1), []⟩ := by
  refine ⟨⟨by decide, by decide⟩, ?_, ?_⟩
  · rw [handle_exit_eq "ABC123" 7 ⟨some MAX_SPOTS, []⟩ MAX_SPOTS rfl]
    rfl
  · intro hcontra
    exact absurd hcontra.2 (by decide)

/-- Claim C3 (amended): the occupancy record satisfies the full range
invariant `0 ≤ available_slots ≤ MAX_SPOTS` when it is initialised to
`MAX_SPOTS`, and the lower bound `0 ≤ available_slots` is preserved by
`handle_entry` and by `handle_exit` from any state satisfying it; the
upper bound is not preserved by `handle_exit` (which increments without a
clamp). -/
theorem c3_lower_invariant (plate image_key : String) (now : Int)
    (ts : String) (st : Store) (hst : SlotsNonneg st) :
    SlotsInRange ⟨some MAX_SPOTS, []⟩ ∧
    SlotsNonneg (handle_entry plate image_key now ts st).store ∧
    (∀ r, handle_exit plate now st = some r → SlotsNonneg r.store) := by
  refine ⟨⟨by decide, by decide⟩, ?_, ?_⟩
  · rcases hocc : st.occ with _ | s
    · by_cases hp : plate ≠ "UNKNOWN"
      · rw [handle_entry_open plate image_key now ts st hp
          (by rw [hocc]; decide)]
        simp [SlotsNonneg, hocc]
        decide
      · rw [not_not] at hp
        subst hp
        rw [show handle_entry "UNKNOWN" image_key now ts st
            = ⟨{ st with occ := some MAX_SPOTS },
                api_response 200 "DENIED_NO_TEXT", []⟩ from by
          simp [handle_entry, hocc, show ¬ MAX_SPOTS ≤ 0 by decide]]
        simp [SlotsNonneg]
        decide
    · rw [SlotsNonneg, hocc] at hst
      by_cases hs : s ≤ 0
      · rw [handle_entry_full plate image_key now ts st s hocc hs]
        rw [SlotsNonneg, hocc]
        exact hst
      · by_cases hp : plate ≠ "UNKNOWN"
        · rw [handle_entry_open plate image_key now ts st hp
            (by rw [hocc]; simpa using by omega)]
          simp [SlotsNonneg, hocc]
          omega
        · rw [not_not] at hp
          subst hp
          rw [handle_entry_denied image_key now ts st s hocc (by omega)]
          rw [SlotsNonneg, hocc]
          exact hst
  · intro r hr
    rcases hocc : st.occ with _ | s
    · rw [handle_exit, hocc] at hr
      exact absurd hr (by simp)
    · rw [handle_exit_eq plate now st s hocc] at hr
      rw [SlotsNonneg, hocc] at hst
      obtain rfl : _ = r := Option.some_injective _ hr
      rw [SlotsNonneg]
      simpa using by omega

theorem c3_witness :
    SlotsInRange ⟨some MAX_SPOTS, []⟩ ∧
    SlotsNonneg (handle_entry "ABC123" "k.jpg" 5 "t" ⟨some 3, []⟩).store ∧
    (∀ r, handle_exit "ABC123" 5 ⟨some 3, []⟩ = some r →
      SlotsNonneg r.store) :=
  c3_lower_invariant "ABC123" "k.jpg" 5 "t" ⟨some 3, []⟩ (by constructor)
lemma int_div_60_eq_fdiv (x : Int) (hx : 0 ≤ x) :
    int_div_60 x = Int.fdiv x 60 := by
  rw [int_div_60, if_pos hx]
  conv_rhs => rw [← Int.toNat_of_nonneg hx]
  exact_mod_cast Int.ofNat_fdiv x.toNat 60

/-- Claim C5: on EXIT with a known plate whose session record is stored,
the computed `duration_minutes` is `⌊(exit_epoch − entry_epoch) / 60⌋`
(the request times being monotone, the exit time is at least the stored
entry epoch, where Python truncation agrees with floor); with an UNKNOWN
plate or no matching record, `duration_minutes` is 0. -/
theorem c5_exit_duration (plate : String) (now : Int) (st : Store)
    (s : Int) (h : st.occ = some s) :
    (∀ rec : SessionRecord, plate ≠ "UNKNOWN" →
      st.sessions.lookup plate = some rec → rec.entry_epoch ≤ now →
      ∃ r, handle_exit plate now st = some r ∧
        r.duration_minutes = Int.fdiv (now - rec.entry_epoch) 60) ∧
    ((plate = "UNKNOWN" ∨ st.sessions.lookup plate = none) →
      ∃ r, handle_exit plate now st = some r ∧ r.duration_minutes = 0) := by
  constructor
  · intro rec hp hlook hmono
    refine ⟨_, handle_exit_eq plate now st s h, ?_⟩
    simp only [hp, hlook, if_pos, ne_eq, not_false_eq_true, if_true]
    exact int_div_60_eq_fdiv _ (by omega)
  · intro hcase
    refine ⟨_, handle_exit_eq plate now st s h, ?_⟩
    rcases hcase with hp | hlook
    · simp [hp]
    · simp only [hlook]
      split <;> rfl

theorem c5_witness :
    (∀ rec : SessionRecord, "ABC123" ≠ "UNKNOWN" →
      ([("ABC123", (⟨"t", 100, "ENTRY", "u"⟩ : SessionRecord))].lookup "ABC123")
          = some rec → rec.entry_epoch ≤ 225 →
      ∃ r, handle_exit "ABC123" 225
          ⟨some 29, [("ABC123", ⟨"t", 100, "ENTRY", "u"⟩)]⟩ = some r ∧
        r.duration_minutes = Int.fdiv (225 - rec.entry_epoch) 60) ∧
    (("ABC123" = "UNKNOWN" ∨
      ([("ABC123", (⟨"t", 100, "ENTRY", "u"⟩ : SessionRecord))].lookup "ABC123")
          = none) →
      ∃ r, handle_exit "ABC123" 225
          ⟨some 29, [("ABC123", ⟨"t", 100, "ENTRY", "u"⟩)]⟩ = some r ∧
        r.duration_minutes = 0) :=
  c5_exit_duration "ABC123" 225
    ⟨some 29, [("ABC123", ⟨"t", 100, "ENTRY", "u"⟩)]⟩ 29 rfl
/-- Spec-side description of the plate derivation (from the claim's words):
the `DetectedText` of the first detection whose `Type` is LINE and whose
`Confidence` is strictly greater than 70, or UNKNOWN if none qualifies. -/
def specFirstHighConfidenceLine : List TextDetection → String
  | [] => "UNKNOWN"
  | d :: rest =>
    if d.dType = "LINE" ∧ 70 < d.confidence then d.detectedText
    else specFirstHighConfidenceLine rest

lemma detectLines_foldl_acc (l : List TextDetection) :
    ∀ acc : List String,
      l.foldl
        (fun acc item =>
          if item.dType = "LINE" ∧ 70 < item.confidence then
            acc ++ [item.detectedText]
          else acc) acc
      = acc ++ l.foldl
          (fun acc item =>
            if item.dType = "LINE" ∧ 70 < item.confidence then
              acc ++ [item.detectedText]
            else acc) [] := by
  induction l with
  | nil => intro acc; simp
  | cons d rest ih =>
    intro acc
    by_cases hp : d.dType = "LINE" ∧ 70 < d.confidence
    · simp only [List.foldl_cons, if_pos hp, List.nil_append]
      rw [ih (acc ++ [d.detectedText]), ih [d.detectedText]]
      simp
    · simp only [List.foldl_cons, if_neg hp]
      exact ih acc

lemma detectLines_cons (d : TextDetection) (rest : List TextDetection) :
    detectLines (d :: rest)
      = (if d.dType = "LINE" ∧ 70 < d.confidence then [d.detectedText]
         else []) ++ detectLines rest := by
  by_cases hp : d.dType = "LINE" ∧ 70 < d.confidence
  · rw [detectLines, List.foldl_cons, if_pos hp]
    rw [show (([] : List String) ++ [d.detectedText]) = [d.detectedText] from
      rfl]
    rw [detectLines_foldl_acc rest [d.detectedText], if_pos hp]
    rfl
  · rw [detectLines, List.foldl_cons, if_neg hp, if_neg hp]
    rfl

lemma head_detectLines (dets : List TextDetection) :
    (match detectLines dets with
      | t :: _ => t
      | [] => "UNKNOWN")
      = specFirstHighConfidenceLine dets := by
  induction dets with
  | nil => rfl
  | cons d rest ih =>
    rw [detectLines_cons, specFirstHighConfidenceLine]
    by_cases hp : d.dType = "LINE" ∧ 70 < d.confidence
    · rw [if_pos hp, if_pos hp]
      rfl
    · rw [if_neg hp, if_neg hp, List.nil_append]
      exact ih

/-- Claim C8: over non-empty image bytes the derived plate is the
`DetectedText` of the first detection with `Type` LINE and `Confidence`
strictly above 70 (UNKNOWN when no detection qualifies), and the plate is
UNKNOWN whenever the recognition call raises or the image bytes are
empty. -/
theorem c8_plate_derivation (image_bytes : List Nat)
    (dets : List TextDetection) (rek : Option (List TextDetection)) :
    (image_bytes ≠ [] →
      recognizedPlate image_bytes (some dets)
        = specFirstHighConfidenceLine dets) ∧
    recognizedPlate image_bytes none = "UNKNOWN" ∧
    recognizedPlate [] rek = "UNKNOWN" := by
  refine ⟨?_, ?_, rfl⟩
  · intro hb
    rw [recognizedPlate]
    simp only [hb, ne_eq, not_false_eq_true, if_true]
    exact head_detectLines dets
  · by_cases hb : image_bytes = []
    · subst hb
      rfl
    · rw [recognizedPlate]
      simp only [hb, ne_eq, not_false_eq_true, if_true]

theorem c8_witness :
    (([1, 2] : List Nat) ≠ [] →
      recognizedPlate [1, 2]
          (some [⟨"WORD", 99, "W"⟩, ⟨"LINE", 50, "LOW"⟩,
                 ⟨"LINE", 80, "ABC123"⟩])
        = specFirstHighConfidenceLine
            [⟨"WORD", 99, "W"⟩, ⟨"LINE", 50, "LOW"⟩,
             ⟨"LINE", 80, "ABC123"⟩]) ∧
    recognizedPlate [1, 2] none = "UNKNOWN" ∧
    recognizedPlate []
        (some [⟨"LINE", 80, "ABC123"⟩]) = "UNKNOWN" :=
  c8_plate_derivation [1, 2]
    [⟨"WORD", 99, "W"⟩, ⟨"LINE", 50, "LOW"⟩, ⟨"LINE", 80, "ABC123"⟩]
    (some [⟨"LINE", 80, "ABC123"⟩])
lemma handle_entry_status (plate image_key : String) (now : Int)
    (ts : String) (st : Store) :
    (handle_entry plate image_key now ts st).response.statusCode = 200 := by
  rcases hocc : st.occ with _ | s <;>
    simp only [handle_entry, hocc] <;>
    split <;> (try split) <;> rfl

lemma handle_exit_status (plate : String) (now : Int) (st : Store)
    (r : ExitResult) (hr : handle_exit plate now st = some r) :
    r.response.statusCode = 200 := by
  rcases hocc : st.occ with _ | s
  · rw [handle_exit, hocc] at hr
    exact absurd hr (by simp)
  · rw [handle_exit_eq plate now st s hocc] at hr
    obtain rfl : _ = r := Option.some_injective _ hr
    rfl

theorem c4_counterexample :
    decodeBody ⟨[("x-parking-action", "PING")], false, some ""⟩ = some [] ∧
    (lambda_handler ⟨[("x-parking-action", "PING")], false, some ""⟩ none 0
        "" ⟨some 5, []⟩).map (fun r => r.response)
      = some (api_response 400 "INVALID_ACTION") := by
  exact ⟨rfl, rfl⟩

/-- Claim C4 (amended): a produced response is non-200 exactly when body
decoding fails or the action is neither ENTRY nor EXIT; decode failure
yields `{400, "IMAGE_DECODE_ERROR"}`, an unrecognised action yields
`{400, "INVALID_ACTION"}`, and every decoded ENTRY or EXIT request that
produces a response produces a 200 one. -/
theorem c4_non200 (ev : Event) (rek : Option (List TextDetection))
    (now : Int) (ts : String) (st : Store) (r : LambdaResult)
    (h : lambda_handler ev rek now ts st = some r) :
    (r.response.statusCode ≠ 200 ↔
      (decodeBody ev = none ∨
        (actionOf ev ≠ "ENTRY" ∧ actionOf ev ≠ "EXIT"))) ∧
    (decodeBody ev = none →
      r.response = api_response 400 "IMAGE_DECODE_ERROR") ∧
    (decodeBody ev ≠ none → actionOf ev ≠ "ENTRY" → actionOf ev ≠ "EXIT" →
      r.response = api_response 400 "INVALID_ACTION") := by
  rcases hd : decodeBody ev with _ | bytes
  · simp only [lambda_handler, hd] at h
    obtain rfl : _ = r := Option.some_injective _ h
    refine ⟨by simp [api_response, hd], fun _ => rfl, ?_⟩
    intro hne
    exact absurd rfl hne
  · by_cases hA : actionOf ev = "ENTRY"
    · simp only [lambda_handler, hd] at h
      rw [if_pos hA] at h
      obtain rfl : _ = r := Option.some_injective _ h
      refine ⟨by simp [handle_entry_status, hd, hA], by simp [hd], ?_⟩
      intro _ hA2 _
      exact absurd hA hA2
    · by_cases hX : actionOf ev = "EXIT"
      · simp only [lambda_handler, hd] at h
        rw [if_neg hA, if_pos hX] at h
        rw [Option.map_eq_some'] at h
        obtain ⟨r0, hr0, rfl⟩ := h
        have h200 := handle_exit_status _ now st r0 hr0
        refine ⟨by simp [h200, hd, hX], by simp [hd], ?_⟩
        intro _ _ hX2
        exact absurd hX hX2
      · simp only [lambda_handler, hd] at h
        rw [if_neg hA, if_neg hX] at h
        obtain rfl : _ = r := Option.some_injective _ h
        refine ⟨by simp [api_response, hd, hA, hX], by simp [hd], ?_⟩
        intro _ _ _
        rfl

theorem c4_witness :
    ((api_response 400 "INVALID_ACTION").statusCode ≠ 200 ↔
      (decodeBody ⟨[("x-parking-action", "PING")], false, some ""⟩ = none ∨
        (actionOf ⟨[("x-parking-action", "PING")], false, some ""⟩ ≠ "ENTRY" ∧
         actionOf ⟨[("x-parking-action", "PING")], false, some ""⟩ ≠ "EXIT"))) ∧
    (decodeBody ⟨[("x-parking-action", "PING")], false, some ""⟩ = none →
      api_response 400 "INVALID_ACTION"
        = api_response 400 "IMAGE_DECODE_ERROR") ∧
    (decodeBody ⟨[("x-parking-action", "PING")], false, some ""⟩ ≠ none →
      actionOf ⟨[("x-parking-action", "PING")], false, some ""⟩ ≠ "ENTRY" →
      actionOf ⟨[("x-parking-action", "PING")], false, some ""⟩ ≠ "EXIT" →
      api_response 400 "INVALID_ACTION"
        = api_response 400 "INVALID_ACTION") := by
  have h := c4_non200 ⟨[("x-parking-action", "PING")], false, some ""⟩ none 0
    "" ⟨some 5, []⟩ ⟨⟨some 5, []⟩, api_response 400 "INVALID_ACTION", [], []⟩
    rfl
  exact h
/-- Claim C9: the action header is matched case-sensitively against ENTRY
and EXIT; any other action string on a successfully decoded request yields
`{400, "INVALID_ACTION"}` with the store unmutated and no metrics, even
though the image upload is still attempted first (for non-empty bytes). -/
theorem c9_case_sensitive_action (ev : Event)
    (rek : Option (List TextDetection)) (now : Int) (ts : String)
    (st : Store) (bytes : List Nat) (hd : decodeBody ev = some bytes)
    (h1 : actionOf ev ≠ "ENTRY") (h2 : actionOf ev ≠ "EXIT") :
    ∃ r, lambda_handler ev rek now ts st = some r ∧
      r.response = api_response 400 "INVALID_ACTION" ∧
      r.store = st ∧ r.metrics = [] ∧
      (bytes ≠ [] → r.uploads ≠ []) := by
  simp only [lambda_handler, hd]
  rw [if_neg h1, if_neg h2]
  refine ⟨_, rfl, rfl, rfl, rfl, ?_⟩
  intro hb
  simp [DEBUG_MODE, hb]

theorem c9_witness :
    ∃ r, lambda_handler ⟨[("x-parking-action", "entry")], false, some "AAAA"⟩
        none 9 "t" ⟨some 3, []⟩ = some r ∧
      r.response = api_response 400 "INVALID_ACTION" ∧
      r.store = ⟨some 3, []⟩ ∧ r.metrics = [] ∧
      (([0, 0, 0] : List Nat) ≠ [] → r.uploads ≠ []) :=
  c9_case_sensitive_action ⟨[("x-parking-action", "entry")], false,
    some "AAAA"⟩ none 9 "t" ⟨some 3, []⟩ [0, 0, 0] rfl
    (by decide) (by decide)

/-- Claim C10: an empty body string decodes successfully to empty bytes, so
the request is not rejected; recognition is skipped, the plate is UNKNOWN,
and the request completes as `{200, "DENIED_NO_TEXT"}` on ENTRY with a
positive counter and `{200, "EXIT_SUCCESS"}` on EXIT, while a request with
no body field at all yields `{400, "IMAGE_DECODE_ERROR"}`. -/
theorem c10_empty_body (ev : Event) (rek : Option (List TextDetection))
    (now : Int) (ts : String) (st : Store) (s : Int)
    (hb : ev.body = some "") :
    decodeBody ev = some [] ∧
    (actionOf ev = "ENTRY" → st.occ = some s → 0 < s →
      (lambda_handler ev rek now ts st).map (fun r => r.response)
        = some (api_response 200 "DENIED_NO_TEXT")) ∧
    (actionOf ev = "EXIT" → st.occ = some s →
      (lambda_handler ev rek now ts st).map (fun r => r.response)
        = some (api_response 200 "EXIT_SUCCESS")) ∧
    (∀ ev2 : Event, ev2.body = none →
      (lambda_handler ev2 rek now ts st).map (fun r => r.response)
        = some (api_response 400 "IMAGE_DECODE_ERROR")) := by
  have hdec : decodeBody ev = some [] := by
    simp only [decodeBody, hb]
    split <;> rfl
  refine ⟨hdec, ?_, ?_, ?_⟩
  · intro hA hocc hs
    simp only [lambda_handler, hdec]
    rw [if_pos hA]
    simp [recognizedPlate, handle_entry_denied "error.jpg" now ts st s hocc hs]
  · intro hX hocc
    simp only [lambda_handler, hdec]
    rw [if_neg (by rw [hX]; decide), if_pos hX]
    simp [recognizedPlate, handle_exit_eq "UNKNOWN" now st s hocc]
  · intro ev2 hb2
    have hdec2 : decodeBody ev2 = none := by
      simp only [decodeBody, hb2]
    simp only [lambda_handler, hdec2]
    rfl

theorem c10_witness :
    (lambda_handler ⟨[("x-parking-action", "ENTRY")], false, some ""⟩ none 9
        "t" ⟨some 3, []⟩).map (fun r => r.response)
      = some (api_response 200 "DENIED_NO_TEXT") ∧
    (lambda_handler ⟨[("x-parking-action", "EXIT")], false, some ""⟩ none 9
        "t" ⟨some 3, []⟩).map (fun r => r.response)
      = some (api_response 200 "EXIT_SUCCESS") ∧
    (lambda_handler ⟨[], false, none⟩ none 9 "t" ⟨some 3, []⟩).map
        (fun r => r.response)
      = some (api_response 400 "IMAGE_DECODE_ERROR") := by
  refine ⟨?_, ?_, ?_⟩
  · exact (c10_empty_body ⟨[("x-parking-action", "ENTRY")], false, some ""⟩
      none 9 "t" ⟨some 3, []⟩ 3 rfl).2.1 rfl rfl (by decide)
  · exact (c10_empty_body ⟨[("x-parking-action", "EXIT")], false, some ""⟩
      none 9 "t" ⟨some 3, []⟩ 3 rfl).2.2.1 rfl rfl
  · exact (c10_empty_body ⟨[("x-parking-action", "ENTRY")], false, some ""⟩
      none 9 "t" ⟨some 3, []⟩ 3 rfl).2.2.2 ⟨[], false, none⟩ rfl

end SmartParking
